import Mathlib

/-!
# Verification of `stats_functions.py`

A shallow embedding of the online statistics module (`StatisticsAccumulator`,
`mean_std_online`, `lognorm_mean_var_to_mu_sigma`, `sampling_distribution_cv`)
together with proofs about the embedded definitions.

Modelling conventions:
* Python floats are modelled as exact rationals (`ℚ`) for the accumulator and
  as reals (`ℝ`) where the code applies `sqrt`/`log`/`Gamma`.
* A Python method that mutates `self` and may raise is modelled as a function
  returning the post-call state together with `Option PyErr`: the returned
  state records exactly the mutations performed before the exception site.
* `np.nan` results are modelled as `none`.
* The Python class `StatisticsAccumulator` has two runtime representations,
  selected by whether `shape is None`: a scalar representation (`_mean` and
  `_M2` are Python scalars) and an array representation (`_mean` a 1-d array,
  `_M2` a 1-d array or a matrix).  They are embedded as two structures,
  `ScalarAccumulator` (the `shape=None` path) and `StatisticsAccumulator`
  (the fixed-shape path).
-/

namespace StatsFunctions

/-- Python exception classes raised by the module (with their message). -/
inductive PyErr where
  | runtimeError (msg : String)
  | valueError (msg : String)
  | typeError (msg : String)
deriving DecidableEq, Repr

instance {ε α : Type} [DecidableEq ε] [DecidableEq α] :
    DecidableEq (Except ε α) := fun x y =>
  match x, y with
  | .ok a, .ok b =>
    if h : a = b then .isTrue (congrArg Except.ok h)
    else .isFalse (fun hh => h (Except.ok.inj hh))
  | .error e, .error f =>
    if h : e = f then .isTrue (congrArg Except.error h)
    else .isFalse (fun hh => h (Except.error.inj hh))
  | .ok _, .error _ => .isFalse (fun hh => Except.noConfusion hh)
  | .error _, .ok _ => .isFalse (fun hh => Except.noConfusion hh)

/-! ## Scalar-mode accumulator (`shape is None`)

State of a `StatisticsAccumulator` whose samples are Python scalars.
`mv = none` models the freshly constructed state where `_mean` and `_M2`
are both `None`; `_initialize` sets them to the first value and `0`. -/

structure ScalarAccumulator where
  count : ℕ
  ddof : ℕ
  mv : Option (ℚ × ℚ)
deriving DecidableEq, Repr

/-- Python `StatisticsAccumulator.__init__` with `shape=None`. -/
def ScalarAccumulator.init (ddof : ℕ) : ScalarAccumulator :=
  { count := 0, ddof := ddof, mv := none }

/-- Python `StatisticsAccumulator.add` for scalar values: `_initialize` on the first
call, Welford update afterwards (`delta` from the pre-update mean, the `_M2`
increment `delta * (value - self._mean)` from the post-update mean). -/
def ScalarAccumulator.add (a : ScalarAccumulator) (value : ℚ) : ScalarAccumulator :=
  match a.mv with
  | none => { a with count := 1, mv := some (value, 0) }
  | some (m, m2) =>
    let c := a.count + 1
    let delta := value - m
    let mean1 := m + delta / (c : ℚ)
    { a with count := c, mv := some (mean1, m2 + delta * (value - mean1)) }

/-- Python `StatisticsAccumulator.add_many`: folds `add` over the values in order. -/
def ScalarAccumulator.add_many (a : ScalarAccumulator) (xs : List ℚ) : ScalarAccumulator :=
  xs.foldl ScalarAccumulator.add a

/-- The `mean` property in scalar mode: returns `_mean` (which is `None`
before the first `add`). -/
def ScalarAccumulator.mean (a : ScalarAccumulator) : Option ℚ :=
  a.mv.map Prod.fst

/-- The `var` property in scalar mode: raises `RuntimeError` when
`count <= ddof`, otherwise returns `_M2 / (count - ddof)`.  (The `typeError`
branch models `None / int` for the never-initialized state, which is
unreachable when `count > ddof ≥ 0`.) -/
def ScalarAccumulator.var (a : ScalarAccumulator) : Except PyErr ℚ :=
  if a.count ≤ a.ddof then
    .error (.runtimeError "Too few items to calculate variance")
  else
    match a.mv with
    | none => .error (.typeError "unsupported operand type")
    | some (_, m2) => .ok (m2 / ((a.count : ℚ) - (a.ddof : ℚ)))

/-- The `std` property in scalar mode: `np.sqrt(self.var)`. -/
noncomputable def ScalarAccumulator.std (a : ScalarAccumulator) : Except PyErr ℝ :=
  a.var.map (fun q => Real.sqrt (q : ℝ))

/-- Python `mean_std_online` for scalar data with the default `shape=None`:
feeds the data through an accumulator, replaces a `None` mean by `nan`
(modelled `none`), and computes `std` inside `try: ... except ValueError`,
so only a `ValueError` is converted to `nan`; any other exception (such as
the `RuntimeError` raised by `var`) propagates to the caller. -/
noncomputable def mean_std_online (xs : List ℚ) (ddof : ℕ) :
    Except PyErr (Option ℝ × Option ℝ) :=
  let acc := (ScalarAccumulator.init ddof).add_many xs
  let mean : Option ℝ := acc.mean.map (fun q => (q : ℝ))
  match acc.std with
  | .ok s => .ok (mean, some s)
  | .error (.valueError _) => .ok (mean, none)
  | .error e => .error e

/-! ## Batch (offline) formulas the spec compares against -/

/-- Sum of the squares of a batch of samples (`Σ x²`). -/
def sqTotal (xs : List ℚ) : ℚ := (xs.map (fun x => x * x)).sum

/-- Batch mean `sum(samples) / count`. -/
def batchMean (xs : List ℚ) : ℚ := xs.sum / (xs.length : ℚ)

/-- Batch population variance `Σ (x - mean)² / count` (ddof = 0). -/
def popVariance (xs : List ℚ) : ℚ :=
  (xs.map (fun x => (x - batchMean xs) ^ 2)).sum / (xs.length : ℚ)

/-- Closed form of the scalar accumulator state after adding a batch:
`count` is the batch length, `_mean` its average, `_M2 = Σx² - (Σx)²/n`. -/
def welfordClosed (d : ℕ) (xs : List ℚ) : ScalarAccumulator :=
  if xs.length = 0 then ScalarAccumulator.init d
  else
    { count := xs.length, ddof := d,
      mv := some (xs.sum / (xs.length : ℚ),
                  sqTotal xs - xs.sum ^ 2 / (xs.length : ℚ)) }

/-! ## Array-mode accumulator (fixed shape)

State of a `StatisticsAccumulator` whose `shape` is fixed (given at
construction, or inferred from a first array-valued sample).  `_mean` is the
flat (ravelled) running mean; `_M2` is a flat vector when `ret_cov` is false
and a `size × size` matrix when `ret_cov` is true — in the Python class
`ret_cov` and the rank of `_M2` are set together at allocation time, so the
flag is represented here by the constructor of `_M2`. -/

/-- An n-dimensional numpy value: its shape and its ravelled (flat) data. -/
structure NDValue where
  shape : List ℕ
  data : List ℚ
deriving DecidableEq, Repr

/-- The second-moment buffer `_M2`: a flat vector (variance only,
`ret_cov=False`) or a full matrix (`ret_cov=True`). -/
inductive M2Store where
  | vec (w : List ℚ)
  | mat (m : List (List ℚ))
deriving DecidableEq, Repr

structure StatisticsAccumulator where
  count : ℕ
  ddof : ℕ
  shape : List ℕ
  _mean : List ℚ
  _M2 : M2Store
deriving DecidableEq, Repr

/-- The `ret_cov` flag, as recorded by the allocation of `_M2`. -/
def StatisticsAccumulator.ret_cov (a : StatisticsAccumulator) : Bool :=
  match a._M2 with
  | .mat _ => true
  | .vec _ => false

/-- Python `StatisticsAccumulator.__init__` with a given `shape`:
`count = 0`, `_mean = zeros(size)`, `_M2` zeros of the rank selected by
`ret_cov`, where `size = prod(shape)`. -/
def StatisticsAccumulator.init (ddof : ℕ) (shape : List ℕ) (ret_cov : Bool) :
    StatisticsAccumulator :=
  let size := shape.prod
  { count := 0, ddof := ddof, shape := shape,
    _mean := List.replicate size 0,
    _M2 := if ret_cov then .mat (List.replicate size (List.replicate size 0))
           else .vec (List.replicate size 0) }

/-! NumPy 1-d broadcasting, as exercised by `add`.  A binary ufunc on two 1-d
arrays works elementwise when the lengths agree, stretches a length-1 operand
otherwise, and raises a `ValueError` when the lengths are incompatible.  An
in-place update (`a += b`) additionally requires the broadcast result to have
the length of the output operand `a`. -/

/-- Broadcast a binary operation over two flat arrays (numpy ufunc rules for
one axis); `none` models the broadcast `ValueError`. -/
def bcast (f : ℚ → ℚ → ℚ) (a b : List ℚ) : Option (List ℚ) :=
  if a.length = b.length then some (List.zipWith f a b)
  else if a.length = 1 then some (b.map (fun y => f a.headI y))
  else if b.length = 1 then some (a.map (fun x => f x b.headI))
  else none

/-- In-place broadcast `a (op)= b`: the result must keep `a`'s length. -/
def ibcast (f : ℚ → ℚ → ℚ) (a b : List ℚ) : Option (List ℚ) :=
  if a.length = b.length then some (List.zipWith f a b)
  else if b.length = 1 then some (a.map (fun x => f x b.headI))
  else none

/-- The `np.outer delta delta`-style outer product of two flat vectors. -/
def outer (a b : List ℚ) : List (List ℚ) :=
  a.map (fun x => b.map (fun y => x * y))

/-- Apply a scalar function to every entry of a matrix. -/
def matMap (f : ℚ → ℚ) (m : List (List ℚ)) : List (List ℚ) :=
  m.map (List.map f)

/-- Elementwise combination of two matrices of equal dimensions. -/
def matZip (f : ℚ → ℚ → ℚ) (m1 m2 : List (List ℚ)) : List (List ℚ) :=
  List.zipWith (List.zipWith f) m1 m2

/-- The diagonal of a matrix, as `np.diag` extracts it. -/
def diag (m : List (List ℚ)) : List ℚ :=
  (List.range m.length).map (fun i => (m.getD i []).getD i 0)

/-- The matrix update the covariance branch of `add` performs, read off the
source line `self._M2 += ((self.count - 1) * np.outer(delta, delta) -
self._M2 / self.count)`: here `c` is the already-incremented count. -/
def covUpdate (c : ℕ) (delta : List ℚ) (m : List (List ℚ)) : List (List ℚ) :=
  matZip (fun x y => x + y) m
    (matZip (fun x y => x - y)
      (matMap (fun x => ((c : ℚ) - 1) * x) (outer delta delta))
      (matMap (fun x => x / (c : ℚ)) m))

/-- Modelled from the spec: the covariance update as the spec sentence
states it, `M2 += (count − 1) * outer(delta, delta) / count − M2 / count`
(the outer-product term carries a `/ count` that the source line lacks). -/
def covUpdateSpec (c : ℕ) (delta : List ℚ) (m : List (List ℚ)) : List (List ℚ) :=
  matZip (fun x y => x + y) m
    (matZip (fun x y => x - y)
      (matMap (fun x => ((c : ℚ) - 1) * x / (c : ℚ)) (outer delta delta))
      (matMap (fun x => x / (c : ℚ)) m))

/-- Python `StatisticsAccumulator.add` in array mode (`self._mean is not None`, so
the `_initialize` branch is not taken).  The method mutates `self.count`
first and only then performs the numpy operations, so the returned state of
a failing call has `count` already incremented:
`value = np.ravel(value)`, `count += 1`, `delta = value - _mean`,
`_mean += delta / count`, then the `_M2` update of the selected mode. -/
def StatisticsAccumulator.add (a : StatisticsAccumulator) (value : NDValue) :
    StatisticsAccumulator × Option PyErr :=
  let flat := value.data
  let c := a.count + 1
  let a1 := { a with count := c }
  match bcast (fun x y => x - y) flat a._mean with
  | none => (a1, some (.valueError "operands could not be broadcast together"))
  | some delta =>
    match ibcast (fun x y => x + y) a._mean (delta.map (fun d => d / (c : ℚ))) with
    | none => (a1, some (.valueError "non-broadcastable output operand"))
    | some mean1 =>
      match a._M2 with
      | .mat m =>
        ({ a1 with _mean := mean1, _M2 := .mat (covUpdate c delta m) }, none)
      | .vec w =>
        match bcast (fun x y => x - y) flat mean1 with
        | none =>
          ({ a1 with _mean := mean1 },
           some (.valueError "operands could not be broadcast together"))
        | some vmm =>
          match bcast (fun x y => x * y) delta vmm with
          | none =>
            ({ a1 with _mean := mean1 },
             some (.valueError "operands could not be broadcast together"))
          | some prod =>
            match ibcast (fun x y => x + y) w prod with
            | none =>
              ({ a1 with _mean := mean1 },
               some (.valueError "non-broadcastable output operand"))
            | some w1 =>
              ({ a1 with _mean := mean1, _M2 := .vec w1 }, none)

/-- The `mean` property in array mode: `_mean.reshape(shape)`; the reshape
succeeds exactly when the buffer length matches `prod(shape)`. -/
def StatisticsAccumulator.mean (a : StatisticsAccumulator) : Option NDValue :=
  if a._mean.length = a.shape.prod then some ⟨a.shape, a._mean⟩ else none

/-- The `var` property in array mode: raises `RuntimeError` when
`count <= ddof`; otherwise `_M2 / (count - ddof)` (the diagonal of `_M2`
first when `ret_cov` is true), reshaped to `shape`. -/
def StatisticsAccumulator.var (a : StatisticsAccumulator) : Except PyErr NDValue :=
  if a.count ≤ a.ddof then
    .error (.runtimeError "Too few items to calculate variance")
  else
    let denom : ℚ := (a.count : ℚ) - (a.ddof : ℚ)
    let v : List ℚ :=
      match a._M2 with
      | .mat m => (diag m).map (fun x => x / denom)
      | .vec w => w.map (fun x => x / denom)
    if v.length = a.shape.prod then .ok ⟨a.shape, v⟩
    else .error (.valueError "cannot reshape array")

/-- The `cov` property: raises `RuntimeError` when `count <= ddof` (this
check comes first in the source), then `ValueError` when `ret_cov` is
false, and otherwise returns `_M2 / (count - ddof)` as a matrix. -/
def StatisticsAccumulator.cov (a : StatisticsAccumulator) :
    Except PyErr (List (List ℚ)) :=
  if a.count ≤ a.ddof then
    .error (.runtimeError "Too few items to calculate variance")
  else
    match a._M2 with
    | .vec _ => .error (.valueError "The covariance matrix was not calculated")
    | .mat m => .ok (matMap (fun x => x / ((a.count : ℚ) - (a.ddof : ℚ))) m)

/-- Python `add_many` in array mode. -/
def StatisticsAccumulator.add_many (a : StatisticsAccumulator)
    (xs : List NDValue) : StatisticsAccumulator :=
  xs.foldl (fun acc v => (acc.add v).1) a

/-- Well-formedness of an array-mode state: the `_M2` buffer has the
dimensions allocated for it (`size` respectively `size × size`, with
`size` the length of `_mean`).  `__init__` establishes it and `add`
preserves it. -/
def StatisticsAccumulator.wf (a : StatisticsAccumulator) : Prop :=
  match a._M2 with
  | .vec w => w.length = a._mean.length
  | .mat m => m.length = a._mean.length ∧
      ∀ row ∈ m, row.length = a._mean.length

/-! ## Log-normal parameterization -/

/-- Python `lognorm_mean_var_to_mu_sigma(mean, variance, definition)`:
`mu = mean² / sqrt(mean² + variance)`, `sigma = sqrt(log(1 + variance/mean²))`;
returned as `(mu, sigma)` for `definition='scipy'`, as `(log mu, sigma)` for
`definition='numpy'`, and a `ValueError` otherwise. -/
noncomputable def lognorm_mean_var_to_mu_sigma (mean variance : ℝ)
    (definition : String) : Except PyErr (ℝ × ℝ) :=
  let mean2 := mean ^ 2
  let mu := mean2 / Real.sqrt (mean2 + variance)
  let sigma := Real.sqrt (Real.log (1 + variance / mean2))
  if definition = "scipy" then .ok (mu, sigma)
  else if definition = "numpy" then .ok (Real.log mu, sigma)
  else .error (.valueError "Unknown definition")

/-! ## Sampling distribution of the coefficient of variation -/

/-- The index list of the series in `sampling_distribution_cv`, read off the
source line `for i in range(1 - num%2, num, 2)`: indices starting at
`1 - num % 2` and stepping by `2` while staying below `num`. -/
def cvIndices (num : ℕ) : List ℕ :=
  List.range' (1 - num % 2) ((num - (1 - num % 2) + 1) / 2) 2

/-- Python `sampling_distribution_cv(x, cv, num)` (Hendricks & Robey 1936):
`0` for `x < 0`, otherwise the series over `cvIndices num` multiplied by the
closed-form prefactors.  `misc.factorial` is `Nat.factorial`,
`special.gamma` is `Real.Gamma`, and float `**` is `Real.rpow`. -/
noncomputable def sampling_distribution_cv (x cv : ℝ) (num : ℕ) : ℝ :=
  if x < 0 then 0
  else
    let x2 := x * x
    let series : ℝ := ((cvIndices num).map (fun (i : ℕ) =>
      (Nat.factorial (num - 1) : ℝ) * Real.Gamma (((num : ℝ) - (i : ℝ)) / 2)
        * Real.rpow (num : ℝ) ((i : ℝ) / 2) /
      ((Nat.factorial (num - 1 - i) : ℝ) * (Nat.factorial i : ℝ)
        * Real.rpow 2 ((i : ℝ) / 2) * cv ^ i
        * Real.rpow (1 + x2) ((i : ℝ) / 2)))).sum
    series * (2 / (Real.sqrt Real.pi * Real.Gamma (((num : ℝ) - 1) / 2)))
      * (Real.rpow x ((num : ℝ) - 2) / Real.rpow (1 + x2) ((num : ℝ) / 2))
      * Real.exp (-(num : ℝ) / 2 / cv ^ 2 * x2 / (1 + x2))

end StatsFunctions

namespace StatsFunctions

/-! ## Helper lemmas -/

theorem bcast_of_length_eq (f : ℚ → ℚ → ℚ) (a b : List ℚ)
    (h : a.length = b.length) : bcast f a b = some (List.zipWith f a b) := by
  unfold bcast
  rw [if_pos h]

theorem ibcast_of_length_eq (f : ℚ → ℚ → ℚ) (a b : List ℚ)
    (h : a.length = b.length) : ibcast f a b = some (List.zipWith f a b) := by
  unfold ibcast
  rw [if_pos h]

theorem bcast_of_one_left (f : ℚ → ℚ → ℚ) (a b : List ℚ)
    (hne : a.length ≠ b.length) (h1 : a.length = 1) :
    bcast f a b = some (b.map (fun y => f a.headI y)) := by
  unfold bcast
  rw [if_neg hne, if_pos h1]

theorem bcast_of_one_right (f : ℚ → ℚ → ℚ) (a b : List ℚ)
    (hne : a.length ≠ b.length) (ha : a.length ≠ 1) (hb : b.length = 1) :
    bcast f a b = some (a.map (fun x => f x b.headI)) := by
  unfold bcast
  rw [if_neg hne, if_neg ha, if_pos hb]

theorem bcast_none (f : ℚ → ℚ → ℚ) (a b : List ℚ)
    (h1 : a.length ≠ b.length) (h2 : a.length ≠ 1) (h3 : b.length ≠ 1) :
    bcast f a b = none := by
  unfold bcast
  rw [if_neg h1, if_neg h2, if_neg h3]

theorem ibcast_none (f : ℚ → ℚ → ℚ) (a b : List ℚ)
    (h1 : a.length ≠ b.length) (h2 : b.length ≠ 1) :
    ibcast f a b = none := by
  unfold ibcast
  rw [if_neg h1, if_neg h2]

theorem sqTotal_append (xs : List ℚ) (y : ℚ) :
    sqTotal (xs ++ [y]) = sqTotal xs + y * y := by
  simp [sqTotal]

/-- The scalar accumulator state after a batch of adds is `welfordClosed`:
`count` is the batch length, the running mean is the batch average, and
`_M2 = Σx² - (Σx)²/n`. -/
theorem add_many_closed (d : ℕ) (xs : List ℚ) :
    (ScalarAccumulator.init d).add_many xs = welfordClosed d xs := by
  induction xs using List.reverseRecOn with
  | nil => rfl
  | append_singleton ys y ih =>
    have hsplit : (ScalarAccumulator.init d).add_many (ys ++ [y]) =
        ((ScalarAccumulator.init d).add_many ys).add y := by
      simp [ScalarAccumulator.add_many, List.foldl_append]
    rw [hsplit, ih]
    rcases eq_or_ne ys [] with hnil | hne
    · subst hnil
      simp only [welfordClosed, List.length_nil, if_pos, List.nil_append,
        List.length_cons, List.length_nil, Nat.zero_add, ScalarAccumulator.add,
        ScalarAccumulator.init]
      simp [sqTotal]
      ring
    · have hlen : ys.length ≠ 0 := by
        simpa [List.length_eq_zero] using hne
      have hQ : ((ys.length : ℚ)) ≠ 0 := Nat.cast_ne_zero.mpr hlen
      have hQ1 : ((ys.length : ℚ) + 1) ≠ 0 := by positivity
      simp only [welfordClosed, if_neg hlen, ScalarAccumulator.add,
        List.length_append, List.length_cons, List.length_nil, Nat.zero_add,
        List.sum_append, List.sum_cons, List.sum_nil, add_zero,
        sqTotal_append, Nat.add_eq_zero, Nat.succ_ne_zero, and_false,
        if_false, ScalarAccumulator.mk.injEq, Option.some.injEq,
        Prod.mk.injEq, true_and]
      push_cast
      constructor
      · field_simp
        ring
      · field_simp
        ring

theorem sum_sq_sub (c : ℚ) (xs : List ℚ) :
    (xs.map (fun x => (x - c) ^ 2)).sum =
      sqTotal xs - 2 * c * xs.sum + (xs.length : ℚ) * c ^ 2 := by
  induction xs with
  | nil => simp [sqTotal]
  | cons a as ih =>
    simp only [List.map_cons, List.sum_cons, ih, sqTotal, List.length_cons]
    push_cast
    ring

/-- The batch population variance, written with the accumulator's `_M2`
closed form `(Σx² - (Σx)²/n) / n`. -/
theorem popVariance_eq (xs : List ℚ) (h : xs ≠ []) :
    popVariance xs =
      (sqTotal xs - xs.sum ^ 2 / (xs.length : ℚ)) / (xs.length : ℚ) := by
  have hlen : xs.length ≠ 0 := by simpa [List.length_eq_zero] using h
  have hQ : ((xs.length : ℚ)) ≠ 0 := Nat.cast_ne_zero.mpr hlen
  unfold popVariance batchMean
  rw [sum_sq_sub]
  field_simp
  ring

/-- The method `add` succeeds when the ravelled value's length equals the accumulator
size or is 1 (numpy broadcasting): no exception is raised. -/
theorem add_ok_of_len (a : StatisticsAccumulator) (v : NDValue) (hwf : a.wf)
    (h : v.data.length = a._mean.length ∨ v.data.length = 1) :
    (a.add v).2 = none := by
  unfold StatisticsAccumulator.add
  dsimp only
  unfold StatisticsAccumulator.wf at hwf
  by_cases hls : v.data.length = a._mean.length
  · rw [bcast_of_length_eq _ _ _ hls]
    dsimp only
    rw [ibcast_of_length_eq _ _ _ (by simp [List.length_zipWith, hls])]
    dsimp only
    cases hM : a._M2 with
    | mat m => rfl
    | vec w =>
      rw [hM] at hwf
      dsimp only at hwf
      rw [bcast_of_length_eq _ _ _ (by simp [List.length_zipWith, List.length_map, hls])]
      dsimp only
      rw [bcast_of_length_eq _ _ _ (by simp [List.length_zipWith, List.length_map, hls])]
      dsimp only
      rw [ibcast_of_length_eq _ _ _ (by simp [List.length_zipWith, List.length_map, hls, hwf])]
  · have hl1 : v.data.length = 1 := h.resolve_left hls
    rw [bcast_of_one_left _ _ _ hls hl1]
    dsimp only
    rw [ibcast_of_length_eq _ _ _ (by simp [List.length_map])]
    dsimp only
    cases hM : a._M2 with
    | mat m => rfl
    | vec w =>
      rw [hM] at hwf
      dsimp only at hwf
      have hm1 : (List.zipWith (fun x y => x + y) a._mean
          ((a._mean.map (fun y => v.data.headI - y)).map
            (fun d => d / ((a.count + 1 : ℕ) : ℚ)))).length = a._mean.length := by
        simp [List.length_zipWith, List.length_map]
      rw [bcast_of_one_left _ _ _ (by rw [hm1]; exact hls) hl1]
      dsimp only
      rw [bcast_of_length_eq _ _ _ (by simp [List.length_zipWith, List.length_map])]
      dsimp only
      rw [ibcast_of_length_eq _ _ _ (by simp [List.length_zipWith, List.length_map, hwf])]

/-- The method `add` fails (with a broadcast `ValueError`) when the ravelled value's
length is incompatible with the accumulator size, and the failing call has
already incremented `count` but not yet touched `_mean` or `_M2`. -/
theorem add_fail_of_len (a : StatisticsAccumulator) (v : NDValue)
    (h1 : v.data.length ≠ a._mean.length) (h2 : v.data.length ≠ 1) :
    (a.add v).1 = { a with count := a.count + 1 } ∧ (a.add v).2.isSome := by
  unfold StatisticsAccumulator.add
  dsimp only
  by_cases hs : a._mean.length = 1
  · rw [bcast_of_one_right _ _ _ h1 h2 hs]
    dsimp only
    rw [ibcast_none _ _ _ (by simp [List.length_map]; omega)
      (by simp [List.length_map]; exact h2)]
    exact ⟨rfl, rfl⟩
  · rw [bcast_none _ _ _ h1 h2 hs]
    exact ⟨rfl, rfl⟩

end StatsFunctions

open StatsFunctions

/-- C2 counterexample: a covariance-tracking accumulator holding the one
sample `[1,2]` (count 1, mean `[1,2]`, `M2 = 0`), upon `add([2,4])`
(so `delta = [1,2]`, post-increment count 2), ends with
`M2 = [[1,2],[2,4]]`, whereas the claimed update
`M2 += (count-1)*outer(delta,delta)/count - M2/count` would give
`[[1/2,1],[1,2]]`: the source line lacks the `/count` on the outer term. -/
theorem cov_update_counterexample :
    ((StatisticsAccumulator.init 0 [2] true).add ⟨[2], [1, 2]⟩).1 =
      ⟨1, 0, [2], [1, 2], .mat [[0, 0], [0, 0]]⟩ ∧
    (((StatisticsAccumulator.init 0 [2] true).add ⟨[2], [1, 2]⟩).1.add
        ⟨[2], [2, 4]⟩).1._M2 = .mat [[1, 2], [2, 4]] ∧
    covUpdateSpec 2 [1, 2] [[0, 0], [0, 0]] = [[1/2, 1], [1, 2]] ∧
    ([[(1 : ℚ), 2], [2, 4]] : List (List ℚ)) ≠ [[1/2, 1], [1, 2]] := by
  refine ⟨?_, ?_, ?_, ?_⟩
  · norm_num [StatisticsAccumulator.add, StatisticsAccumulator.init, bcast,
      ibcast, covUpdate, matZip, matMap, outer, List.replicate_succ,
      List.zipWith_cons_cons, List.map_cons]
  · norm_num [StatisticsAccumulator.add, StatisticsAccumulator.init, bcast,
      ibcast, covUpdate, matZip, matMap, outer, List.replicate_succ,
      List.zipWith_cons_cons, List.map_cons]
  · norm_num [covUpdateSpec, matZip, matMap, outer]
  · norm_num

/-- C2 (amended): in covariance mode, on an accumulator holding at least one
sample, `add(value)` (with a value of matching flattened size) succeeds and
updates the second moment by the source's formula
`M2 += (count - 1) * outer(delta, delta) - M2 / count` — without the
`/count` on the outer term — where `delta = value - (pre-update mean)` and
`count` is the post-increment count; for the samples `[1,2]`, `[2,4]`,
`[3,6]` the reported covariance matrix (ddof = 0) is still proportional to
`[[1,2],[2,4]]` (factor 31/18). -/
theorem add_cov_update (a : StatisticsAccumulator) (v : NDValue)
    (m : List (List ℚ)) (hm : a._M2 = .mat m) (hc : 1 ≤ a.count)
    (hl : v.data.length = a._mean.length) :
    a.add v =
      ({ a with
          count := a.count + 1,
          _mean := List.zipWith (fun x y => x + y) a._mean
            ((List.zipWith (fun x y => x - y) v.data a._mean).map
              (fun d => d / ((a.count + 1 : ℕ) : ℚ))),
          _M2 := M2Store.mat (covUpdate (a.count + 1)
            (List.zipWith (fun x y => x - y) v.data a._mean) m) }, none) ∧
    ((StatisticsAccumulator.init 0 [2] true).add_many
        [⟨[2], [1, 2]⟩, ⟨[2], [2, 4]⟩, ⟨[2], [3, 6]⟩]).cov =
      .ok [[31/18, 31/9], [31/9, 62/9]] ∧
    ([[(31 : ℚ)/18, 31/9], [31/9, 62/9]] : List (List ℚ)) =
      matMap (fun x => (31/18) * x) [[1, 2], [2, 4]] := by
  refine ⟨?_, ?_, ?_⟩
  · unfold StatisticsAccumulator.add
    dsimp only
    rw [bcast_of_length_eq _ _ _ hl]
    dsimp only
    rw [ibcast_of_length_eq _ _ _ (by simp [List.length_zipWith, hl])]
    dsimp only
    simp only [hm]
  · norm_num [StatisticsAccumulator.add_many, StatisticsAccumulator.add,
      StatisticsAccumulator.init, StatisticsAccumulator.cov, bcast, ibcast,
      covUpdate, matZip, matMap, outer, diag, List.replicate_succ,
      List.zipWith_cons_cons, List.map_cons, List.range_succ]
  · norm_num [matMap]

/-- Witness for C2's amended theorem at the concrete one-sample state. -/
theorem add_cov_update_witness :
    ((⟨1, 0, [2], [1, 2], .mat [[0, 0], [0, 0]]⟩ : StatisticsAccumulator).add
        ⟨[2], [2, 4]⟩).2 = none ∧
    ((⟨1, 0, [2], [1, 2], .mat [[0, 0], [0, 0]]⟩ : StatisticsAccumulator).add
        ⟨[2], [2, 4]⟩).1._M2 =
      .mat (covUpdate 2 (List.zipWith (fun x y => x - y) [2, 4] [1, 2])
        [[0, 0], [0, 0]]) := by
  have h := (add_cov_update ⟨1, 0, [2], [1, 2], .mat [[0, 0], [0, 0]]⟩
    ⟨[2], [2, 4]⟩ [[0, 0], [0, 0]] rfl (by decide) rfl).1
  rw [h]
  exact ⟨rfl, rfl⟩

/-- C3: for every ddof, `mean_std_online` on an empty sequence does **not**
return a `(nan, nan)` pair: the `var` accessor raises
`RuntimeError('Too few items to calculate variance')` (since `count = 0 ≤
ddof`), and the surrounding `try` block only catches `ValueError`, so the
`RuntimeError` propagates out of `mean_std_online`. -/
theorem mean_std_online_empty_raises (ddof : ℕ) :
    mean_std_online [] ddof =
      .error (.runtimeError "Too few items to calculate variance") := by
  simp [mean_std_online, ScalarAccumulator.add_many, ScalarAccumulator.std,
        ScalarAccumulator.var, ScalarAccumulator.init, ScalarAccumulator.mean,
        Except.map]

/-- C10: an accumulator constructed with an explicit shape has `count = 0`
and its `mean` accessor succeeds (neither raises nor yields a `nan`
sentinel), returning the zero array of the given shape. -/
theorem init_mean_is_zero_array (ddof : ℕ) (shape : List ℕ) (ret_cov : Bool) :
    (StatisticsAccumulator.init ddof shape ret_cov).count = 0 ∧
    (StatisticsAccumulator.init ddof shape ret_cov).mean =
      some ⟨shape, List.replicate shape.prod 0⟩ := by
  refine ⟨rfl, ?_⟩
  simp [StatisticsAccumulator.init, StatisticsAccumulator.mean]

/-- C7 counterexample: on a freshly constructed accumulator with covariance
tracking disabled (`count = 0`, `ddof = 0`), the `cov` accessor raises the
insufficient-samples `RuntimeError`, not the unsupported-operation
`ValueError` the claim promises regardless of count and ddof. -/
theorem cov_untracked_counterexample :
    (StatisticsAccumulator.init 0 [2] false).cov =
      .error (.runtimeError "Too few items to calculate variance") ∧
    PyErr.runtimeError "Too few items to calculate variance" ≠
      PyErr.valueError "The covariance matrix was not calculated" := by
  refine ⟨rfl, ?_⟩
  simp

/-- C7 (amended): with covariance tracking disabled, `cov` always fails,
but the insufficient-samples check comes first: it raises the
`RuntimeError` when `count ≤ ddof` and the unsupported-operation
`ValueError` only when `count > ddof`. -/
theorem cov_untracked_errors (a : StatisticsAccumulator)
    (h : a.ret_cov = false) :
    (a.count ≤ a.ddof →
      a.cov = .error (.runtimeError "Too few items to calculate variance")) ∧
    (a.ddof < a.count →
      a.cov = .error (.valueError "The covariance matrix was not calculated")) := by
  obtain ⟨w, hw⟩ : ∃ w, a._M2 = .vec w := by
    cases hM : a._M2 with
    | vec w => exact ⟨w, rfl⟩
    | mat m => simp [StatisticsAccumulator.ret_cov, hM] at h
  constructor
  · intro hc
    simp [StatisticsAccumulator.cov, hc]
  · intro hc
    simp [StatisticsAccumulator.cov, Nat.not_le.mpr hc, hw]

/-- Witness for C7's amended theorem at a concrete state. -/
theorem cov_untracked_errors_witness :
    (⟨1, 0, [1], [5], .vec [0]⟩ : StatisticsAccumulator).cov =
      .error (.valueError "The covariance matrix was not calculated") :=
  (cov_untracked_errors ⟨1, 0, [1], [5], .vec [0]⟩ rfl).2 (by decide)

/-- C6: the `var` accessor raises the insufficient-samples `RuntimeError`
exactly when `count ≤ ddof`; when `count > ddof` it returns
`_M2 / (count - ddof)` — the diagonal of `_M2` when covariance tracking is
enabled — reshaped to the accumulator's shape. -/
theorem var_accessor_spec (a : StatisticsAccumulator) :
    (a.var = .error (.runtimeError "Too few items to calculate variance") ↔
      a.count ≤ a.ddof) ∧
    (∀ w, a._M2 = .vec w → a.ddof < a.count → w.length = a.shape.prod →
      a.var = .ok ⟨a.shape,
        w.map (fun x => x / ((a.count : ℚ) - (a.ddof : ℚ)))⟩) ∧
    (∀ m, a._M2 = .mat m → a.ddof < a.count → m.length = a.shape.prod →
      a.var = .ok ⟨a.shape,
        (diag m).map (fun x => x / ((a.count : ℚ) - (a.ddof : ℚ)))⟩) := by
  refine ⟨?_, ?_, ?_⟩
  · unfold StatisticsAccumulator.var
    by_cases h1 : a.count ≤ a.ddof
    · simp [h1]
    · rw [if_neg h1]
      constructor
      · intro heq
        exfalso
        split at heq <;> (dsimp only at heq; split at heq <;> simp at heq)
      · intro hc
        exact absurd hc h1
  · intro w hw hc hlen
    simp [StatisticsAccumulator.var, Nat.not_le.mpr hc, hw, hlen]
  · intro m hm hc hlen
    simp [StatisticsAccumulator.var, Nat.not_le.mpr hc, hm, diag, hlen]

/-- C1: for every non-empty batch of scalar samples fed through `add`, the
final mean is `sum / count`, the final variance (ddof = 0) is the batch
population variance `Σ(x - mean)² / count`, exactly over ℚ, and both
accessors are invariant under permutation of the input sequence. -/
theorem welford_matches_batch (xs : List ℚ) (h : xs ≠ []) :
    ((ScalarAccumulator.init 0).add_many xs).count = xs.length ∧
    ((ScalarAccumulator.init 0).add_many xs).mean =
      some (xs.sum / (xs.length : ℚ)) ∧
    ((ScalarAccumulator.init 0).add_many xs).var = .ok (popVariance xs) ∧
    ∀ ys : List ℚ, xs.Perm ys →
      ((ScalarAccumulator.init 0).add_many ys).mean =
        ((ScalarAccumulator.init 0).add_many xs).mean ∧
      ((ScalarAccumulator.init 0).add_many ys).var =
        ((ScalarAccumulator.init 0).add_many xs).var := by
  have hlen : xs.length ≠ 0 := by simpa [List.length_eq_zero] using h
  simp only [add_many_closed]
  refine ⟨?_, ?_, ?_, ?_⟩
  · simp [welfordClosed, hlen]
  · simp [welfordClosed, hlen, ScalarAccumulator.mean]
  · rw [popVariance_eq xs h]
    simp [welfordClosed, hlen, ScalarAccumulator.var]
  · intro ys hperm
    have h1 : ys.length = xs.length := hperm.length_eq.symm
    have h2 : ys.sum = xs.sum := hperm.sum_eq.symm
    have h3 : sqTotal ys = sqTotal xs := by
      unfold sqTotal
      exact ((hperm.map (fun x => x * x)).sum_eq).symm
    have hwc : welfordClosed 0 ys = welfordClosed 0 xs := by
      unfold welfordClosed
      rw [h1, h2, h3]
    rw [hwc]
    exact ⟨rfl, rfl⟩

/-- Witness for C1 on the concrete batch `[1, 2, 4]`. -/
theorem welford_matches_batch_witness :
    ((ScalarAccumulator.init 0).add_many [(1 : ℚ), 2, 4]).var =
      .ok (popVariance [(1 : ℚ), 2, 4]) ∧
    ((ScalarAccumulator.init 0).add_many [(2 : ℚ), 4, 1]).mean =
      ((ScalarAccumulator.init 0).add_many [(1 : ℚ), 2, 4]).mean := by
  have h := welford_matches_batch [(1 : ℚ), 2, 4] (by decide)
  exact ⟨h.2.2.1, (h.2.2.2 [(2 : ℚ), 4, 1] (by decide)).1⟩

/-- C4 counterexample: constructing with `shape=(2,3)` and adding a value of
shape `(3,2)` (same total size 6) raises nothing — `add` ravels the value
and never compares shapes — and the sample is incorporated
(`count` becomes 1), contradicting the claimed `ShapeMismatch`. -/
theorem add_shape_counterexample :
    ((StatisticsAccumulator.init 0 [2, 3] false).add
        ⟨[3, 2], [1, 2, 3, 4, 5, 6]⟩).2 = none ∧
    ((StatisticsAccumulator.init 0 [2, 3] false).add
        ⟨[3, 2], [1, 2, 3, 4, 5, 6]⟩).1.count = 1 := by
  constructor
  · exact add_ok_of_len _ _ rfl (Or.inl rfl)
  · rfl

/-- C4 (amended): `add` performs no shape check at all; it fails — with a
numpy broadcast `ValueError`, not a shape-mismatch check — exactly when the
ravelled value's length is incompatible with the accumulator's size, i.e.
neither equal to it nor equal to 1. -/
theorem add_error_iff_incompatible_length (a : StatisticsAccumulator)
    (v : NDValue) (hwf : a.wf) :
    (a.add v).2.isSome ↔
      v.data.length ≠ a._mean.length ∧ v.data.length ≠ 1 := by
  constructor
  · intro hs
    by_contra hn
    rw [Decidable.not_and_iff_or_not, not_not, not_not] at hn
    rw [add_ok_of_len a v hwf hn] at hs
    simp at hs
  · rintro ⟨h1, h2⟩
    exact (add_fail_of_len a v h1 h2).2

/-- Witness for C4's amended theorem: a length-2 value fed to a size-4
accumulator makes `add` raise. -/
theorem add_error_iff_incompatible_length_witness :
    ((StatisticsAccumulator.init 0 [4] false).add ⟨[2], [1, 2]⟩).2.isSome :=
  (add_error_iff_incompatible_length (StatisticsAccumulator.init 0 [4] false)
    ⟨[2], [1, 2]⟩ rfl).mpr (by constructor <;> decide)

/-- C5 counterexample: a failing `add` is not atomic — on a size-3
accumulator with `count = 0`, adding an incompatible length-2 value raises,
yet the post-call `count` is 1. -/
theorem add_not_atomic_counterexample :
    ((StatisticsAccumulator.init 0 [3] false).add ⟨[2], [1, 2]⟩).2.isSome ∧
    ((StatisticsAccumulator.init 0 [3] false).add ⟨[2], [1, 2]⟩).1.count = 1 ∧
    (StatisticsAccumulator.init 0 [3] false).count = 0 := by
  refine ⟨(add_fail_of_len _ _ (by decide) (by decide)).2, ?_, rfl⟩
  rw [congrArg StatisticsAccumulator.count
    (add_fail_of_len (StatisticsAccumulator.init 0 [3] false) ⟨[2], [1, 2]⟩
      (by decide) (by decide)).1]
  rfl

/-- C5 (amended): when `add` fails, `_mean` and `_M2` (and `shape`, `ddof`)
are unchanged, but `count` has already been incremented — `self.count += 1`
precedes the failing numpy subtraction. -/
theorem add_failure_keeps_buffers (a : StatisticsAccumulator) (v : NDValue)
    (hwf : a.wf) (hfail : (a.add v).2.isSome) :
    (a.add v).1.count = a.count + 1 ∧ (a.add v).1._mean = a._mean ∧
    (a.add v).1._M2 = a._M2 ∧ (a.add v).1.shape = a.shape ∧
    (a.add v).1.ddof = a.ddof := by
  by_cases h : v.data.length = a._mean.length ∨ v.data.length = 1
  · rw [add_ok_of_len a v hwf h] at hfail
    simp at hfail
  · rw [not_or] at h
    rw [(add_fail_of_len a v h.1 h.2).1]
    exact ⟨rfl, rfl, rfl, rfl, rfl⟩

/-- Witness for C5's amended theorem at a concrete failing call. -/
theorem add_failure_keeps_buffers_witness :
    (((StatisticsAccumulator.init 1 [2] true).add ⟨[3], [1, 2, 3]⟩).1._mean =
      (StatisticsAccumulator.init 1 [2] true)._mean) ∧
    ((StatisticsAccumulator.init 1 [2] true).add ⟨[3], [1, 2, 3]⟩).1.count = 1 := by
  have h := add_failure_keeps_buffers (StatisticsAccumulator.init 1 [2] true)
    ⟨[3], [1, 2, 3]⟩ (by constructor <;> simp [StatisticsAccumulator.init])
    ((add_fail_of_len _ _ (by decide) (by decide)).2)
  exact ⟨h.2.1, h.1⟩

/-- C8 counterexample: for `numSamples = 2` the code sums the series over
the index list `[1]` — the index 1 exceeds `numSamples - 2 = 0`, refuting
the claim that no index larger than `n - 2` is summed. -/
theorem cvIndices_counterexample :
    cvIndices 2 = [1] ∧ ¬ (1 : ℕ) ≤ 2 - 2 := by
  decide

/-- C8 (amended): for `numSamples = n ≥ 2` the series of
`sampling_distribution_cv` is summed exactly over the indices
`1 - (n mod 2), 1 - (n mod 2) + 2, …` stepping by 2 up to and **including**
`n - 1` (the loop bound is `range(1 - n % 2, n, 2)`, so the last index is
`n - 1`, not `n - 2`). -/
theorem cvIndices_spec (n : ℕ) (hn : 2 ≤ n) :
    (n - 1) ∈ cvIndices n ∧
    (∀ i : ℕ, i ∈ cvIndices n ↔ i < n ∧ i % 2 = 1 - n % 2) := by
  have hiff : ∀ i : ℕ, i ∈ cvIndices n ↔ i < n ∧ i % 2 = 1 - n % 2 := by
    intro i
    unfold cvIndices
    rw [List.mem_range']
    constructor
    · rintro ⟨k, hk, rfl⟩
      omega
    · rintro ⟨h1, h2⟩
      exact ⟨(i - (1 - n % 2)) / 2, by omega, by omega⟩
  exact ⟨(hiff (n - 1)).mpr ⟨by omega, by omega⟩, hiff⟩

/-- Witness for C8's amended theorem: for `numSamples = 5` the top summed
index is 4. -/
theorem cvIndices_spec_witness : (4 : ℕ) ∈ cvIndices 5 :=
  (cvIndices_spec 5 (by decide)).1

/-- C9: with the `'scipy'` convention, `lognorm_mean_var_to_mu_sigma`
returns `mu = mean² / sqrt(mean² + variance)` and
`sigma = sqrt(ln(1 + variance/mean²))`; in particular at
`mean = 1, variance = 0` it returns `(mu, sigma) = (1, 0)`. -/
theorem lognorm_scipy_spec (mean variance : ℝ) (hm : 0 < mean)
    (hv : 0 ≤ variance) :
    lognorm_mean_var_to_mu_sigma mean variance "scipy" =
      .ok (mean ^ 2 / Real.sqrt (mean ^ 2 + variance),
           Real.sqrt (Real.log (1 + variance / mean ^ 2))) ∧
    lognorm_mean_var_to_mu_sigma 1 0 "scipy" = .ok (1, 0) := by
  constructor
  · rfl
  · unfold lognorm_mean_var_to_mu_sigma
    norm_num

/-- Witness for C9 at the concrete degenerate input. -/
theorem lognorm_scipy_spec_witness :
    lognorm_mean_var_to_mu_sigma 1 0 "scipy" = .ok (1, 0) :=
  (lognorm_scipy_spec 1 0 one_pos le_rfl).2

/-- Witness for C6 at a concrete state: two samples, `ddof = 0`. -/
theorem var_accessor_spec_witness :
    (⟨2, 0, [2], [1, 2], .vec [2, 4]⟩ : StatisticsAccumulator).var =
      .ok ⟨[2], [1, 2]⟩ := by
  rw [(var_accessor_spec ⟨2, 0, [2], [1, 2], .vec [2, 4]⟩).2.1 [2, 4] rfl
    (by decide) (by decide)]
  norm_num
